import Mathlib

/-!
Verification of the weather-to-instrumentation transformation engine of
`signalk-n2k-weather-provider`.

The JavaScript sources are shallowly embedded as follows:

* JavaScript numbers are modelled by `JSNum`: either an exact real (`finite`)
  or one of the non-finite IEEE values `nan`, `posInf`, `negInf`.  Arithmetic
  on `JSNum` follows the IEEE-754 rules for these special values; the `finite`
  fragment is idealized as exact real arithmetic.
* A JavaScript value that may be absent or non-numeric is modelled by `JSVal`:
  `undef` is `undefined` (falsy, `ToNumber` gives `NaN`), `null` is `null`
  (falsy, `typeof` is `"object"`, `ToNumber` gives `0` — the upstream
  converters return `null` for missing provider data), and `num` is a number.
* The `while (angle > Math.PI) ...; while (angle < -Math.PI) ...` loops of
  `weather-utils.js` (`normalizeAngle`), `wind-calculator.js`
  (`calculateApparentWindAngle`) and `nmea2000-paths.js`
  (`validateNMEA2000Ranges`) are modelled twice: on finite reals by the
  well-founded recursions `normLoop1`/`normLoop2` (the loops terminate on every
  real), and on full `JSNum` by the fuel-indexed `jsLoop1`/`jsLoop2`, where
  exhausting every fuel bound witnesses non-termination.
-/

namespace N2KWeather

open Real

/-- Model of a JavaScript number: an exact real, or one of the IEEE special
values `NaN`, `+Infinity`, `-Infinity`. -/
inductive JSNum where
  | finite (x : ℝ)
  | nan
  | posInf
  | negInf

/-- Model of a JavaScript value that may be absent or non-numeric: `undef` is
`undefined` (an absent field), `null` is `null` (what the upstream
`convertAccuWeather*` functions return for missing provider data), and
`num v` is the number `v`.  Both non-number values fail the `typeof v ===
"number"` test and are falsy, but they coerce differently in arithmetic:
`ToNumber(undefined) = NaN` while `ToNumber(null) = 0`. -/
inductive JSVal where
  | undef
  | null
  | num (v : JSNum)

/-- IEEE addition on `JSNum` (`a + b` in JavaScript). -/
def jsAdd : JSNum → JSNum → JSNum
  | .nan, _ => .nan
  | _, .nan => .nan
  | .posInf, .negInf => .nan
  | .negInf, .posInf => .nan
  | .posInf, _ => .posInf
  | _, .posInf => .posInf
  | .negInf, _ => .negInf
  | _, .negInf => .negInf
  | .finite a, .finite b => .finite (a + b)

/-- IEEE subtraction on `JSNum` (`a - b` in JavaScript). -/
def jsSub : JSNum → JSNum → JSNum
  | .nan, _ => .nan
  | _, .nan => .nan
  | .posInf, .posInf => .nan
  | .negInf, .negInf => .nan
  | .posInf, _ => .posInf
  | _, .posInf => .negInf
  | .negInf, _ => .negInf
  | _, .negInf => .posInf
  | .finite a, .finite b => .finite (a - b)

/-- IEEE multiplication on `JSNum` (`a * b` in JavaScript);
`±Infinity * 0 = NaN`. -/
noncomputable def jsMul : JSNum → JSNum → JSNum
  | .nan, _ => .nan
  | _, .nan => .nan
  | .finite a, .finite b => .finite (a * b)
  | .posInf, .posInf => .posInf
  | .posInf, .negInf => .negInf
  | .negInf, .posInf => .negInf
  | .negInf, .negInf => .posInf
  | .posInf, .finite b => if b = 0 then .nan else if 0 < b then .posInf else .negInf
  | .finite a, .posInf => if a = 0 then .nan else if 0 < a then .posInf else .negInf
  | .negInf, .finite b => if b = 0 then .nan else if 0 < b then .negInf else .posInf
  | .finite a, .negInf => if a = 0 then .nan else if 0 < a then .negInf else .posInf

/-- `Math.sqrt` on `JSNum` (NaN on negative or NaN input). -/
noncomputable def jsSqrt : JSNum → JSNum
  | .finite x => if x < 0 then .nan else .finite (Real.sqrt x)
  | .nan => .nan
  | .posInf => .posInf
  | .negInf => .nan

/-- `Math.cos` on `JSNum` (NaN on every non-finite input). -/
noncomputable def jsCos : JSNum → JSNum
  | .finite x => .finite (Real.cos x)
  | _ => .nan

/-- `Math.sin` on `JSNum` (NaN on every non-finite input). -/
noncomputable def jsSin : JSNum → JSNum
  | .finite x => .finite (Real.sin x)
  | _ => .nan

/-- `Math.min` on two `JSNum`s (NaN-propagating, as `Math.min` is). -/
noncomputable def jsMin : JSNum → JSNum → JSNum
  | .nan, _ => .nan
  | _, .nan => .nan
  | .negInf, _ => .negInf
  | _, .negInf => .negInf
  | .posInf, b => b
  | a, .posInf => a
  | .finite a, .finite b => .finite (min a b)

/-- `Math.max` on two `JSNum`s (NaN-propagating, as `Math.max` is). -/
noncomputable def jsMax : JSNum → JSNum → JSNum
  | .nan, _ => .nan
  | _, .nan => .nan
  | .posInf, _ => .posInf
  | _, .posInf => .posInf
  | .negInf, b => b
  | a, .negInf => a
  | .finite a, .finite b => .finite (max a b)

/-- JavaScript truthiness of a number: `0` and `NaN` are falsy, every other
number (including `±Infinity`) is truthy. -/
noncomputable def jsTruthy : JSNum → Bool
  | .finite x => x ≠ 0
  | .nan => false
  | .posInf => true
  | .negInf => true

/-- JavaScript truthiness of a `JSVal` (`undefined` and `null` are falsy). -/
noncomputable def jsTruthyVal : JSVal → Bool
  | .undef => false
  | .null => false
  | .num v => jsTruthy v

/-- JavaScript `a || b`. -/
noncomputable def jsOr (a b : JSVal) : JSVal :=
  if jsTruthyVal a then a else b

/-- `typeof v === "number"` for a `JSVal` (`typeof null` is `"object"`). -/
def typeofIsNumber : JSVal → Bool
  | .undef => false
  | .null => false
  | .num _ => true

/-- JavaScript `ToNumber` coercion as applied by arithmetic operators:
`undefined` coerces to `NaN` but `null` coerces to `0`. -/
noncomputable def toNumber : JSVal → JSNum
  | .undef => .nan
  | .null => .finite 0
  | .num v => v

/-- `Math.atan2 y x` on reals, via the complex argument; the result lies in
`(-π, π]` and `atan2 0 0 = 0`, as in JavaScript (modulo signed zeros, which
the real model does not distinguish). -/
noncomputable def atan2 (y x : ℝ) : ℝ :=
  Complex.arg (x + y * Complex.I)

/-- First normalization loop of `normalizeAngle` (weather-utils.js lines
217-218, and inline in wind-calculator.js line 75 and nmea2000-paths.js line
418): `while (angle > Math.PI) angle -= 2 * Math.PI`. -/
noncomputable def normLoop1 (x : ℝ) : ℝ :=
  if h : Real.pi < x then normLoop1 (x - 2 * Real.pi) else x
termination_by (⌈(x - Real.pi) / (2 * Real.pi)⌉).toNat
decreasing_by
  have h2 : (0:ℝ) < 2 * Real.pi := by positivity
  have hrw : (x - 2 * Real.pi - Real.pi) / (2 * Real.pi)
      = (x - Real.pi) / (2 * Real.pi) - 1 := by
    field_simp
    ring
  have hpos : 0 < ⌈(x - Real.pi) / (2 * Real.pi)⌉ :=
    Int.ceil_pos.mpr (div_pos (by linarith) h2)
  rw [hrw, Int.ceil_sub_one]
  omega

/-- Second normalization loop of `normalizeAngle` (weather-utils.js lines
219-220, and inline in wind-calculator.js line 76 and nmea2000-paths.js line
419): `while (angle < -Math.PI) angle += 2 * Math.PI`. -/
noncomputable def normLoop2 (x : ℝ) : ℝ :=
  if h : x < -Real.pi then normLoop2 (x + 2 * Real.pi) else x
termination_by (⌈(-Real.pi - x) / (2 * Real.pi)⌉).toNat
decreasing_by
  have h2 : (0:ℝ) < 2 * Real.pi := by positivity
  have hrw : (-Real.pi - (x + 2 * Real.pi)) / (2 * Real.pi)
      = (-Real.pi - x) / (2 * Real.pi) - 1 := by
    field_simp
    ring
  have hpos : 0 < ⌈(-Real.pi - x) / (2 * Real.pi)⌉ :=
    Int.ceil_pos.mpr (div_pos (by linarith) h2)
  rw [hrw, Int.ceil_sub_one]
  omega

/-- `normalizeAngle` of weather-utils.js (lines 216-221) on finite reals:
both `±2π`-adjustment loops in sequence. -/
noncomputable def normalizeAngle (x : ℝ) : ℝ :=
  normLoop2 (normLoop1 x)

/-- `calculateApparentWindSpeed` of wind-calculator.js (lines 20-41) on the
numeric path (both speed arguments pass the `typeof` guard and all inputs are
finite). -/
noncomputable def calculateApparentWindSpeed
    (trueWindSpeed vesselSpeed vesselHeading trueWindDirection : ℝ) : ℝ :=
  let trueWindX := trueWindSpeed * Real.cos trueWindDirection
  let trueWindY := trueWindSpeed * Real.sin trueWindDirection
  let vesselX := vesselSpeed * Real.cos vesselHeading
  let vesselY := vesselSpeed * Real.sin vesselHeading
  let apparentWindX := trueWindX - vesselX
  let apparentWindY := trueWindY - vesselY
  Real.sqrt (apparentWindX ^ 2 + apparentWindY ^ 2)

/-- `calculateApparentWindAngle` of wind-calculator.js (lines 51-79) on the
numeric path; the two inline normalization `while` loops are `normalizeAngle`. -/
noncomputable def calculateApparentWindAngle
    (trueWindSpeed vesselSpeed vesselHeading trueWindDirection : ℝ) : ℝ :=
  let trueWindX := trueWindSpeed * Real.cos trueWindDirection
  let trueWindY := trueWindSpeed * Real.sin trueWindDirection
  let vesselX := vesselSpeed * Real.cos vesselHeading
  let vesselY := vesselSpeed * Real.sin vesselHeading
  let apparentWindX := trueWindX - vesselX
  let apparentWindY := trueWindY - vesselY
  let apparentWindDirection := atan2 apparentWindY apparentWindX
  normalizeAngle (apparentWindDirection - vesselHeading)

/-- `calculateApparentWindSpeed` of wind-calculator.js (lines 20-41) at the
JavaScript level, including the `typeof` guard of lines 21-23:
`if (typeof trueWindSpeed !== "number" || typeof vesselSpeed !== "number")
return trueWindSpeed || 0;`. -/
noncomputable def calculateApparentWindSpeedJS
    (trueWindSpeed vesselSpeed vesselHeading trueWindDirection : JSVal) : JSVal :=
  if typeofIsNumber trueWindSpeed = false ∨ typeofIsNumber vesselSpeed = false then
    jsOr trueWindSpeed (.num (.finite 0))
  else
    let w := toNumber trueWindSpeed
    let v := toNumber vesselSpeed
    let trueWindX := jsMul w (jsCos (toNumber trueWindDirection))
    let trueWindY := jsMul w (jsSin (toNumber trueWindDirection))
    let vesselX := jsMul v (jsCos (toNumber vesselHeading))
    let vesselY := jsMul v (jsSin (toNumber vesselHeading))
    let apparentWindX := jsSub trueWindX vesselX
    let apparentWindY := jsSub trueWindY vesselY
    .num (jsSqrt (jsAdd (jsMul apparentWindX apparentWindX)
      (jsMul apparentWindY apparentWindY)))

/-- `Math.atan2` on `JSNum` (special-value table of the JavaScript spec,
without signed-zero distinctions). -/
noncomputable def jsAtan2 : JSNum → JSNum → JSNum
  | .nan, _ => .nan
  | _, .nan => .nan
  | .finite y, .finite x => .finite (atan2 y x)
  | .posInf, .posInf => .finite (Real.pi / 4)
  | .posInf, .negInf => .finite (3 * Real.pi / 4)
  | .negInf, .posInf => .finite (-(Real.pi / 4))
  | .negInf, .negInf => .finite (-(3 * Real.pi / 4))
  | .posInf, .finite _ => .finite (Real.pi / 2)
  | .negInf, .finite _ => .finite (-(Real.pi / 2))
  | .finite _, .posInf => .finite 0
  | .finite y, .negInf => if 0 ≤ y then .finite Real.pi else .finite (-Real.pi)

/-- `calculateApparentWindAngle` of wind-calculator.js (lines 51-79) at the
JavaScript level, including the `typeof` guard of lines 52-54
(`return trueWindDirection - vesselHeading;`).  The result is `none` when the
inline normalization `while` loops of lines 75-76 do not terminate, which
happens exactly when `relativeAngle` is `±Infinity` (the guard stays true and
`±Infinity ∓ 2π = ±Infinity`); on a finite `relativeAngle` they compute
`normalizeAngle`, and on `NaN` both guards are false so `NaN` is returned. -/
noncomputable def calculateApparentWindAngleJS
    (trueWindSpeed vesselSpeed vesselHeading trueWindDirection : JSVal) : Option JSVal :=
  if typeofIsNumber trueWindSpeed = false ∨ typeofIsNumber vesselSpeed = false then
    some (.num (jsSub (toNumber trueWindDirection) (toNumber vesselHeading)))
  else
    let w := toNumber trueWindSpeed
    let v := toNumber vesselSpeed
    let trueWindX := jsMul w (jsCos (toNumber trueWindDirection))
    let trueWindY := jsMul w (jsSin (toNumber trueWindDirection))
    let vesselX := jsMul v (jsCos (toNumber vesselHeading))
    let vesselY := jsMul v (jsSin (toNumber vesselHeading))
    let apparentWindX := jsSub trueWindX vesselX
    let apparentWindY := jsSub trueWindY vesselY
    let apparentWindDirection := jsAtan2 apparentWindY apparentWindX
    let relativeAngle := jsSub apparentWindDirection (toNumber vesselHeading)
    match relativeAngle with
    | .finite r => some (.num (.finite (normalizeAngle r)))
    | .nan => some (.num .nan)
    | .posInf => none
    | .negInf => none

/-- `celsiusToKelvin` of weather-utils.js / wind-calculator.js. -/
noncomputable def celsiusToKelvin (celsius : ℝ) : ℝ :=
  celsius + 273.15

/-- `kelvinToCelsius` of weather-utils.js / wind-calculator.js. -/
noncomputable def kelvinToCelsius (kelvin : ℝ) : ℝ :=
  kelvin - 273.15

/-- `kelvinToFahrenheit` of weather-utils.js / wind-calculator.js. -/
noncomputable def kelvinToFahrenheit (kelvin : ℝ) : ℝ :=
  (kelvin - 273.15) * 9 / 5 + 32

/-- `fahrenheitToKelvin` of weather-utils.js / wind-calculator.js. -/
noncomputable def fahrenheitToKelvin (fahrenheit : ℝ) : ℝ :=
  (fahrenheit - 32) * 5 / 9 + 273.15

/-- `calculateHeatIndex` of wind-calculator.js (lines 114-163) on the numeric
path (both arguments pass the `typeof` guard of lines 115-117). -/
noncomputable def calculateHeatIndex (temperatureK relativeHumidity : ℝ) : ℝ :=
  let tempF := kelvinToFahrenheit temperatureK
  let rhPercent := relativeHumidity * 100
  if tempF < 80 ∨ rhPercent < 40 then temperatureK
  else
    let c1 : ℝ := -42.379
    let c2 : ℝ := 2.04901523
    let c3 : ℝ := 10.14333127
    let c4 : ℝ := -0.22475541
    let c5 : ℝ := -0.00683783
    let c6 : ℝ := -0.05481717
    let c7 : ℝ := 0.00122874
    let c8 : ℝ := 0.00085282
    let c9 : ℝ := -0.00000199
    let t := tempF
    let r := rhPercent
    let heatIndex := c1 + c2 * t + c3 * r + c4 * t * r + c5 * t * t + c6 * r * r
      + c7 * t * t * r + c8 * t * r * r + c9 * t * t * r * r
    let adjusted :=
      if r < 13 ∧ 80 ≤ t ∧ t ≤ 112 then
        heatIndex - ((13 - r) / 4) * Real.sqrt ((17 - |t - 95|) / 17)
      else if 85 < r ∧ 80 ≤ t ∧ t ≤ 87 then
        heatIndex + ((r - 85) / 10) * ((87 - t) / 5)
      else heatIndex
    fahrenheitToKelvin adjusted

/-- Modelled from the spec (claim C6's asserted behaviour, §4.2 of spec.md):
the Rothfusz regression value minus the low-humidity adjustment term
`((13−RH)/4)·√((17−|T_F−95|)/17)`, converted back to Kelvin.  This definition
follows the claim's words and is compared against `calculateHeatIndex`. -/
noncomputable def specLowHumidityHeatIndex (temperatureK relativeHumidity : ℝ) : ℝ :=
  let t := kelvinToFahrenheit temperatureK
  let r := relativeHumidity * 100
  let rothfusz := -42.379 + 2.04901523 * t + 10.14333127 * r + (-0.22475541) * t * r
    + (-0.00683783) * t * t + (-0.05481717) * r * r + 0.00122874 * t * t * r
    + 0.00085282 * t * r * r + (-0.00000199) * t * t * r * r
  fahrenheitToKelvin (rothfusz - ((13 - r) / 4) * Real.sqrt ((17 - |t - 95|) / 17))

/-- `calculateDewPoint` of wind-calculator.js (lines 171-190) on the numeric
path (both arguments pass the `typeof` guard of lines 172-174). -/
noncomputable def calculateDewPoint (temperatureK relativeHumidity : ℝ) : ℝ :=
  let tempC := kelvinToCelsius temperatureK
  let rh := max 0.01 (min 0.99 relativeHumidity)
  let a : ℝ := 17.27
  let b : ℝ := 237.7
  let gamma := a * tempC / (b + tempC) + Real.log rh
  let dewPointC := b * gamma / (a - gamma)
  celsiusToKelvin dewPointC

/-- `convertAccuWeatherHumidity` of weather-utils.js (lines 96-108): `none`
models the `null` returned for a non-number input; the percentage division is
`percentageToRatio` inlined. -/
noncomputable def convertAccuWeatherHumidity (humidity : Option ℝ) : Option ℝ :=
  match humidity with
  | none => none
  | some h => some (if h ≤ 1 then h else h / 100)

/-- The key used to look a default up in the `defaults` table of
nmea2000-paths.js (lines 12-21). -/
inductive ParamKey where
  | temperature
  | pressure
  | humidity
  | windSpeed
  | windDirection
  | dewPoint
  | windChill
  | heatIndex

/-- The `defaults` table of nmea2000-paths.js (lines 12-21). -/
noncomputable def defaults : ParamKey → ℝ
  | .temperature => 273.15
  | .pressure => 101325
  | .humidity => 0.5
  | .windSpeed => 0
  | .windDirection => 0
  | .dewPoint => 273.15
  | .windChill => 273.15
  | .heatIndex => 273.15

/-- `getValueOrDefault` of nmea2000-paths.js (lines 262-282): accept the value
only if it is a finite number, otherwise use the table default.  Every entry
of the `defaults` table is a finite number, so the source's re-check of the
default (with final fallback `0`) always succeeds and is not modelled. -/
noncomputable def getValueOrDefault (value : Option JSNum) (type : ParamKey) : ℝ :=
  match value with
  | some (.finite x) => x
  | _ => defaults type

/-- `calculateAbsoluteHumidity` of nmea2000-paths.js (lines 290-327).  The
`typeof`/`isFinite` input guards always pass on reals; the final
`!Number.isFinite(absoluteHumidity)` re-check cannot fire in the real model
and only the `absoluteHumidity < 0` part remains. -/
noncomputable def calculateAbsoluteHumidity (temperatureK relativeHumidity : ℝ) : ℝ :=
  if temperatureK ≤ 0 ∨ relativeHumidity < 0 then 0
  else
    let tempC := temperatureK - 273.15
    let a : ℝ := 17.27
    let b : ℝ := 237.7
    let saturationPressure := 6.112 * Real.exp (a * tempC / (b + tempC))
    let vaporPressure := relativeHumidity * saturationPressure
    let absoluteHumidity := 0.002166 * vaporPressure / temperatureK
    if absoluteHumidity < 0 then 0 else absoluteHumidity

/-- `calculateAirDensity` of nmea2000-paths.js (lines 336-374).  The
`typeof`/`isFinite` input guards always pass on reals; `relativeHumidity || 0`
is the identity on reals (`0 || 0` is `0`); the final `!Number.isFinite`
re-check cannot fire in the real model and only `density <= 0` remains. -/
noncomputable def calculateAirDensity (temperatureK pressurePa relativeHumidity : ℝ) : ℝ :=
  if temperatureK ≤ 0 ∨ pressurePa ≤ 0 then 1.225
  else
    let R_d : ℝ := 287.0531
    let R_v : ℝ := 461.4964
    let tempC := temperatureK - 273.15
    let saturationPressure := 6.112 * Real.exp (17.27 * tempC / (237.7 + tempC)) * 100
    let vaporPressure := relativeHumidity * saturationPressure
    let dryAirPressure := pressurePa - vaporPressure
    let density := dryAirPressure / (R_d * temperatureK)
      + vaporPressure / (R_v * temperatureK)
    if density ≤ 0 then 1.225 else density

/-- The weather-data record consumed by `mapToSignalKPaths` and
`validateNMEA2000Ranges`.  A field holds `none` when it is absent or
non-numeric (those are treated identically by every consumer), and
`some v` when it holds the JavaScript number `v`. -/
structure WeatherData where
  temperature : Option JSNum := none
  pressure : Option JSNum := none
  humidity : Option JSNum := none
  windSpeed : Option JSNum := none
  windDirection : Option JSNum := none
  dewPoint : Option JSNum := none
  windChill : Option JSNum := none
  heatIndex : Option JSNum := none
  apparentWindSpeed : Option JSNum := none
  apparentWindAngle : Option JSNum := none
  description : Option String := none

/-- A value in a SignalK delta: a number or a text. -/
inductive SKValue where
  | num (x : ℝ)
  | text (s : String)

/-- Whether a SignalK value is numeric. -/
def SKValue.isNum : SKValue → Bool
  | .num _ => true
  | .text _ => false

/-- One entry of the `values` array built by `mapToSignalKPaths` (the
timestamp and the static `meta` block carry no computed data and are not
modelled). -/
structure SKEntry where
  path : String
  value : SKValue

/-- `mapToSignalKPaths` of nmea2000-paths.js (lines 29-254), modelled as the
`values` array of the emitted delta.  A `none` argument stands for a missing
or non-object `weatherData` (replaced by `{}` on lines 30-33).  The
description is appended only when truthy (line 234), i.e. present and
non-empty. -/
noncomputable def mapToSignalKPaths (weatherData : Option WeatherData) : List SKEntry :=
  let wd := weatherData.getD {}
  [ ⟨"environment.outside.temperature",
      .num (getValueOrDefault wd.temperature .temperature)⟩,
    ⟨"environment.outside.dewPointTemperature",
      .num (getValueOrDefault wd.dewPoint .dewPoint)⟩,
    ⟨"environment.outside.apparentTemperature",
      .num (getValueOrDefault wd.heatIndex .heatIndex)⟩,
    ⟨"environment.outside.windChillTemperature",
      .num (getValueOrDefault wd.windChill .windChill)⟩,
    ⟨"environment.outside.theoreticalWindChillTemperature",
      .num (getValueOrDefault wd.windChill .windChill)⟩,
    ⟨"environment.outside.heatIndexTemperature",
      .num (getValueOrDefault wd.heatIndex .heatIndex)⟩,
    ⟨"environment.outside.pressure",
      .num (getValueOrDefault wd.pressure .pressure)⟩,
    ⟨"environment.outside.relativeHumidity",
      .num (getValueOrDefault wd.humidity .humidity)⟩,
    ⟨"environment.wind.speedTrue",
      .num (getValueOrDefault wd.windSpeed .windSpeed)⟩,
    ⟨"environment.wind.directionTrue",
      .num (getValueOrDefault wd.windDirection .windDirection)⟩,
    ⟨"environment.wind.speedApparent",
      .num (getValueOrDefault wd.apparentWindSpeed .windSpeed)⟩,
    ⟨"environment.wind.angleApparent",
      .num (getValueOrDefault wd.apparentWindAngle .windDirection)⟩,
    ⟨"environment.wind.speedOverGround",
      .num (getValueOrDefault wd.windSpeed .windSpeed)⟩,
    ⟨"environment.wind.angleTrueWater",
      .num (getValueOrDefault wd.windDirection .windDirection)⟩,
    ⟨"environment.outside.absoluteHumidity",
      .num (calculateAbsoluteHumidity
        (getValueOrDefault wd.temperature .temperature)
        (getValueOrDefault wd.humidity .humidity))⟩,
    ⟨"environment.outside.airDensity",
      .num (calculateAirDensity
        (getValueOrDefault wd.temperature .temperature)
        (getValueOrDefault wd.pressure .pressure)
        (getValueOrDefault wd.humidity .humidity))⟩ ]
  ++ (match wd.description with
      | some s => if s ≠ "" then [⟨"environment.outside.weatherDescription", .text s⟩] else []
      | none => [])

/-- The `getNMEA2000Paths` reference list of nmea2000-paths.js (lines
429-445); note it has 13 entries, fewer than the 16 numeric paths (plus the
optional description) actually emitted by `mapToSignalKPaths`. -/
def getNMEA2000Paths : List String :=
  [ "environment.outside.temperature",
    "environment.outside.dewPointTemperature",
    "environment.outside.apparentTemperature",
    "environment.outside.windChillTemperature",
    "environment.outside.pressure",
    "environment.outside.relativeHumidity",
    "environment.wind.speedTrue",
    "environment.wind.directionTrue",
    "environment.wind.speedApparent",
    "environment.wind.angleApparent",
    "environment.outside.absoluteHumidity",
    "environment.outside.airDensity",
    "environment.outside.weatherDescription" ]

/-- The 16 numeric paths emitted by `mapToSignalKPaths`, in emission order. -/
def numericSignalKPaths : List String :=
  [ "environment.outside.temperature",
    "environment.outside.dewPointTemperature",
    "environment.outside.apparentTemperature",
    "environment.outside.windChillTemperature",
    "environment.outside.theoreticalWindChillTemperature",
    "environment.outside.heatIndexTemperature",
    "environment.outside.pressure",
    "environment.outside.relativeHumidity",
    "environment.wind.speedTrue",
    "environment.wind.directionTrue",
    "environment.wind.speedApparent",
    "environment.wind.angleApparent",
    "environment.wind.speedOverGround",
    "environment.wind.angleTrueWater",
    "environment.outside.absoluteHumidity",
    "environment.outside.airDensity" ]

/-- Whether the description field would pass the truthiness test of
nmea2000-paths.js line 234 (`if (weatherData.description)`). -/
def descriptionTruthy (wd : WeatherData) : Bool :=
  match wd.description with
  | some s => s ≠ ""
  | none => false

/-- One conditional rule of `validateNMEA2000Ranges`: apply `f` only when the
field is truthy (`if (validated.x) validated.x = ...`); in particular a field
that is absent, `0` or `NaN` is left untouched. -/
noncomputable def applyIfTruthy (f : JSNum → JSNum) : Option JSNum → Option JSNum
  | none => none
  | some v => if jsTruthy v then some (f v) else some v

/-- The `apparentWindAngle` rule of `validateNMEA2000Ranges` (lines 416-420):
when truthy, the two `while` loops normalize a finite angle (they compute
`normalizeAngle`) and never terminate on `±Infinity` (the guard stays true
while `±Infinity ∓ 2π = ±Infinity`); `none` records that divergence. -/
noncomputable def normalizeIfTruthy : Option JSNum → Option (Option JSNum)
  | none => some none
  | some v =>
    if jsTruthy v then
      match v with
      | .finite x => some (some (.finite (normalizeAngle x)))
      | _ => none
    else some (some v)

/-- The JavaScript remainder `a % m` on reals (sign of the dividend,
truncated division). -/
noncomputable def jsRemainder (a m : ℝ) : ℝ :=
  a - m * (if 0 ≤ a / m then (⌊a / m⌋ : ℝ) else (⌈a / m⌉ : ℝ))

/-- The `windDirection` rule of `validateNMEA2000Ranges` (lines 411-414):
`((d % 2π) + 2π) % 2π` on a finite number; `%` on a non-finite number is
`NaN`. -/
noncomputable def jsWrapTwoPi : JSNum → JSNum
  | .finite x =>
    .finite (jsRemainder (jsRemainder x (2 * Real.pi) + 2 * Real.pi) (2 * Real.pi))
  | _ => .nan

/-- `validateNMEA2000Ranges` of nmea2000-paths.js (lines 381-423).  A `none`
input models a falsy `weatherData` (line 382 returns `{}`).  A `none` result
records that the `apparentWindAngle` normalization loop diverged (which
happens exactly for a truthy non-finite angle); every other input produces
`some` of the validated record.  Note only `temperature` is range-checked
among the temperature-kind fields: `dewPoint`, `windChill` and `heatIndex`
are passed through untouched. -/
noncomputable def validateNMEA2000Ranges (weatherData : Option WeatherData) :
    Option WeatherData :=
  match weatherData with
  | none => some {}
  | some wd =>
    (normalizeIfTruthy wd.apparentWindAngle).map (fun angle =>
      { wd with
        temperature := applyIfTruthy
          (fun v => jsMax (.finite 233.15) (jsMin (.finite 358.15) v)) wd.temperature
        pressure := applyIfTruthy
          (fun v => jsMax (.finite 80000) (jsMin (.finite 120000) v)) wd.pressure
        humidity := applyIfTruthy
          (fun v => jsMax (.finite 0) (jsMin (.finite 1) v)) wd.humidity
        windSpeed := applyIfTruthy
          (fun v => jsMax (.finite 0) (jsMin (.finite 102.3) v)) wd.windSpeed
        apparentWindSpeed := applyIfTruthy
          (fun v => jsMax (.finite 0) (jsMin (.finite 102.3) v)) wd.apparentWindSpeed
        windDirection := applyIfTruthy jsWrapTwoPi wd.windDirection
        apparentWindAngle := angle })

/-- The loop guard `angle > Math.PI` as a JavaScript comparison (false on
NaN). -/
noncomputable def jsGtPi : JSNum → Bool
  | .finite x => Real.pi < x
  | .posInf => true
  | .negInf => false
  | .nan => false

/-- The loop guard `angle < -Math.PI` as a JavaScript comparison (false on
NaN). -/
noncomputable def jsLtNegPi : JSNum → Bool
  | .finite x => x < -Real.pi
  | .posInf => false
  | .negInf => true
  | .nan => false

/-- Fuel-indexed run of the first normalization `while` loop on a full
JavaScript number (`while (angle > Math.PI) angle -= 2 * Math.PI`): `none`
means the loop has not finished within the given number of iterations. -/
noncomputable def jsLoop1 : ℕ → JSNum → Option JSNum
  | 0, _ => none
  | n + 1, a =>
    if jsGtPi a then jsLoop1 n (jsSub a (.finite (2 * Real.pi))) else some a

/-- Fuel-indexed run of the second normalization `while` loop
(`while (angle < -Math.PI) angle += 2 * Math.PI`). -/
noncomputable def jsLoop2 : ℕ → JSNum → Option JSNum
  | 0, _ => none
  | n + 1, a =>
    if jsLtNegPi a then jsLoop2 n (jsAdd a (.finite (2 * Real.pi))) else some a

/-- Fuel-indexed run of the whole `normalizeAngle` body of weather-utils.js
(and of the identical inline loops in wind-calculator.js and
nmea2000-paths.js) on a full JavaScript number: `none` means the loops do not
finish within the given number of iterations of each. -/
noncomputable def jsNormalizeAngleFuel (n : ℕ) (a : JSNum) : Option JSNum :=
  (jsLoop1 n a).bind (jsLoop2 n)

theorem normLoop1_le (x : ℝ) : normLoop1 x ≤ Real.pi := by
  induction x using normLoop1.induct with
  | case1 x h ih => rw [normLoop1, dif_pos h]; exact ih
  | case2 x h => rw [normLoop1, dif_neg h]; exact le_of_not_lt h

theorem normLoop1_eq_of_le (x : ℝ) (hx : x ≤ Real.pi) : normLoop1 x = x := by
  rw [normLoop1, dif_neg (not_lt.mpr hx)]

theorem normLoop2_ge (x : ℝ) : -Real.pi ≤ normLoop2 x := by
  induction x using normLoop2.induct with
  | case1 x h ih => rw [normLoop2, dif_pos h]; exact ih
  | case2 x h => rw [normLoop2, dif_neg h]; exact le_of_not_lt h

theorem normLoop2_le (x : ℝ) : x ≤ Real.pi → normLoop2 x ≤ Real.pi := by
  induction x using normLoop2.induct with
  | case1 x h ih =>
    intro _
    rw [normLoop2, dif_pos h]
    exact ih (by have := Real.pi_pos; linarith)
  | case2 x h =>
    intro hx
    rw [normLoop2, dif_neg h]
    exact hx

theorem normLoop2_eq_of_ge (x : ℝ) (hx : -Real.pi ≤ x) : normLoop2 x = x := by
  rw [normLoop2, dif_neg (not_lt.mpr hx)]

theorem normalizeAngle_ge (x : ℝ) : -Real.pi ≤ normalizeAngle x :=
  normLoop2_ge _

theorem normalizeAngle_le (x : ℝ) : normalizeAngle x ≤ Real.pi :=
  normLoop2_le _ (normLoop1_le x)

theorem normalizeAngle_eq_self (x : ℝ) (h1 : -Real.pi ≤ x) (h2 : x ≤ Real.pi) :
    normalizeAngle x = x := by
  rw [normalizeAngle, normLoop1_eq_of_le x h2, normLoop2_eq_of_ge x h1]

theorem atan2_zero_one : atan2 0 1 = 0 := by
  simp [atan2, Complex.arg_one]

/-- Claim C2 (amended): for nonnegative wind and vessel speeds and arbitrary
real heading and direction, `calculateApparentWindSpeed` is nonnegative and
`calculateApparentWindAngle` lies in the closed interval `[-π, π]` (the value
`-π` is attainable, so the half-open interval `(-π, π]` of the original claim
is off by the lower endpoint). -/
theorem C2_amended (trueWindSpeed vesselSpeed vesselHeading trueWindDirection : ℝ)
    (h1 : 0 ≤ trueWindSpeed) (h2 : 0 ≤ vesselSpeed) :
    0 ≤ calculateApparentWindSpeed trueWindSpeed vesselSpeed vesselHeading trueWindDirection ∧
    -Real.pi ≤ calculateApparentWindAngle trueWindSpeed vesselSpeed vesselHeading
      trueWindDirection ∧
    calculateApparentWindAngle trueWindSpeed vesselSpeed vesselHeading
      trueWindDirection ≤ Real.pi :=
  ⟨Real.sqrt_nonneg _, normalizeAngle_ge _, normalizeAngle_le _⟩

/-- Witness for C2_amended at trueWindSpeed = 1, vesselSpeed = 0, heading =
direction = 0. -/
theorem C2_witness :
    0 ≤ (1 : ℝ) ∧ 0 ≤ (0 : ℝ) ∧
    (0 ≤ calculateApparentWindSpeed 1 0 0 0 ∧
     -Real.pi ≤ calculateApparentWindAngle 1 0 0 0 ∧
     calculateApparentWindAngle 1 0 0 0 ≤ Real.pi) :=
  ⟨by norm_num, by norm_num, C2_amended 1 0 0 0 (by norm_num) (by norm_num)⟩

/-- Counterexample to claim C2 as stated: with trueWindSpeed = 1, vesselSpeed
= 0, heading = π, direction = 0 (wind dead astern), the apparent wind angle is
exactly `-π`, not strictly greater than `-π`. -/
theorem C2_cex :
    calculateApparentWindAngle 1 0 Real.pi 0 = -Real.pi ∧
    ¬ (-Real.pi < calculateApparentWindAngle 1 0 Real.pi 0) := by
  have h : calculateApparentWindAngle 1 0 Real.pi 0 = -Real.pi := by
    show normalizeAngle (atan2 (1 * Real.sin 0 - 0 * Real.sin Real.pi)
      (1 * Real.cos 0 - 0 * Real.cos Real.pi) - Real.pi) = -Real.pi
    norm_num
    rw [atan2_zero_one]
    rw [zero_sub, normalizeAngle_eq_self (-Real.pi) (le_refl _)
      (by have := Real.pi_pos; linarith)]
  exact ⟨h, by rw [h]; exact lt_irrefl _⟩

/-- Claim C6 (amended): whenever the relative humidity is below 13% it is in
particular below 40%, so the guard of `calculateHeatIndex` short-circuits and
the input temperature is returned unchanged, for every temperature with
80 ≤ T_F ≤ 112; the low-humidity Rothfusz adjustment branch is unreachable
dead code. -/
theorem C6_amended (temperatureK relativeHumidity : ℝ)
    (hlo : 80 ≤ kelvinToFahrenheit temperatureK)
    (hhi : kelvinToFahrenheit temperatureK ≤ 112)
    (hrh : relativeHumidity * 100 < 13) :
    calculateHeatIndex temperatureK relativeHumidity = temperatureK := by
  have h40 : relativeHumidity * 100 < 40 := by linarith
  simp only [calculateHeatIndex]
  rw [if_pos (Or.inr h40)]

/-- Witness for C6_amended at T = 308.15 K (T_F = 95) and RH = 0.10. -/
theorem C6_witness :
    80 ≤ kelvinToFahrenheit 308.15 ∧ kelvinToFahrenheit 308.15 ≤ 112 ∧
    (0.1 : ℝ) * 100 < 13 ∧ calculateHeatIndex 308.15 0.1 = 308.15 :=
  ⟨by norm_num [kelvinToFahrenheit], by norm_num [kelvinToFahrenheit],
   by norm_num, C6_amended 308.15 0.1 (by norm_num [kelvinToFahrenheit])
     (by norm_num [kelvinToFahrenheit]) (by norm_num)⟩

/-- Counterexample to claim C6 as stated: at T = 308.15 K (T_F = 95, inside
[80, 112]) and RH = 10% (< 13%), the code passes the temperature through
unchanged because the RH ≥ 40% guard fires first, while the claimed
Rothfusz-minus-adjustment value differs from the input temperature. -/
theorem C6_cex :
    calculateHeatIndex 308.15 0.1 = 308.15 ∧
    specLowHumidityHeatIndex 308.15 0.1 ≠ 308.15 := by
  constructor
  · simp only [calculateHeatIndex]
    rw [if_pos (Or.inr (by norm_num))]
  · simp only [specLowHumidityHeatIndex, kelvinToFahrenheit, fahrenheitToKelvin]
    norm_num [Real.sqrt_one]

/-- Claim C7 (amended): the dew point never exceeds the input temperature
provided the temperature is above 35.45 K (i.e. tempC > −237.7, keeping the
Magnus denominator positive); for colder -- physically absurd but numerically
accepted -- inputs the formula can exceed the input temperature. -/
theorem C7_amended (temperatureK relativeHumidity : ℝ)
    (hT : 35.45 < temperatureK) (hrh : relativeHumidity ≤ 1) :
    calculateDewPoint temperatureK relativeHumidity ≤ temperatureK := by
  simp only [calculateDewPoint, kelvinToCelsius, celsiusToKelvin]
  set r' := max (0.01 : ℝ) (min 0.99 relativeHumidity) with hr'
  set c := temperatureK - 273.15 with hc
  have hbc : (0:ℝ) < 237.7 + c := by rw [hc]; linarith
  have h1 : (0.01 : ℝ) ≤ r' := le_max_left _ _
  have h2 : r' ≤ 0.99 := max_le (by norm_num) (min_le_left _ _)
  have hlog : Real.log r' < 0 := Real.log_neg (by linarith) (by linarith)
  set s := 17.27 * c / (237.7 + c) with hs
  have hprod : s * (237.7 + c) = 17.27 * c := by
    rw [hs]
    exact div_mul_cancel₀ _ (ne_of_gt hbc)
  have hγs : s + Real.log r' < s := by linarith
  have hkey : (s + Real.log r') * (237.7 + c) < 17.27 * c := by
    calc (s + Real.log r') * (237.7 + c) < s * (237.7 + c) :=
          mul_lt_mul_of_pos_right hγs hbc
      _ = 17.27 * c := hprod
  have hsa : s < 17.27 := by
    rw [hs, div_lt_iff hbc]
    nlinarith
  have hγa : s + Real.log r' < 17.27 := by linarith
  have hdiv : 237.7 * (s + Real.log r') / (17.27 - (s + Real.log r')) ≤ c := by
    rw [div_le_iff (by linarith)]
    nlinarith [hkey]
  have hT' : temperatureK = c + 273.15 := by rw [hc]; ring
  rw [hT']
  linarith [hdiv]

/-- Witness for C7_amended at T = 288.15 K, RH = 0.65. -/
theorem C7_witness :
    (35.45 : ℝ) < 288.15 ∧ (0.65 : ℝ) ≤ 1 ∧
    calculateDewPoint 288.15 0.65 ≤ 288.15 :=
  ⟨by norm_num, by norm_num, C7_amended 288.15 0.65 (by norm_num) (by norm_num)⟩

/-- Counterexample to claim C7 as stated: at T = −9726.85 K (a "numeric
temperature" as the claim quantifies, tempC = −10000) and RH = 0.5 ≤ 1, the
Magnus gamma lands just below the pole at 17.27 and the computed dew point is
positive, far above the input temperature. -/
theorem C7_cex :
    (0.5 : ℝ) ≤ 1 ∧ ¬ (calculateDewPoint (-9726.85) 0.5 ≤ -9726.85) := by
  refine ⟨by norm_num, ?_⟩
  simp only [calculateDewPoint, kelvinToCelsius, celsiusToKelvin]
  rw [show max (0.01 : ℝ) (min 0.99 0.5) = 0.5 by norm_num]
  have hlog05 : Real.log 0.5 = -Real.log 2 := by
    rw [show (0.5 : ℝ) = 2⁻¹ by norm_num, Real.log_inv]
  have hlog_lo : (-0.6931471808 : ℝ) < Real.log 0.5 := by
    rw [hlog05]
    have := Real.log_two_lt_d9
    linarith
  have hlog_hi : Real.log 0.5 < (-0.6931471803 : ℝ) := by
    rw [hlog05]
    have := Real.log_two_gt_d9
    linarith
  have hsval : 17.27 * ((-9726.85 : ℝ) - 273.15) / (237.7 + ((-9726.85 : ℝ) - 273.15))
      = 1727000 / 97623 := by norm_num
  push_neg
  rw [hsval]
  have hG0 : (0 : ℝ) < 1727000 / 97623 + Real.log 0.5 := by
    have : (0.6931471808 : ℝ) < 1727000 / 97623 := by norm_num
    linarith
  have hGa : (1727000 / 97623 : ℝ) + Real.log 0.5 < 17.27 := by
    have : (1727000 / 97623 : ℝ) - 0.6931471803 < 17.27 := by norm_num
    linarith
  have hdivpos : (0 : ℝ) < 237.7 * (1727000 / 97623 + Real.log 0.5)
      / (17.27 - (1727000 / 97623 + Real.log 0.5)) :=
    div_pos (by linarith) (by linarith)
  linarith

/-- Claim C10 (amended): `convertAccuWeatherHumidity` passes a raw humidity
through when it is at most 1 under the signed comparison (so every negative
value, however large in magnitude, is passed through, not divided), divides
by 100 only when the value is strictly greater than 1, returns 0.65 for the
input 65, and `null` for a non-number. -/
theorem C10_amended (h : ℝ) :
    (h ≤ 1 → convertAccuWeatherHumidity (some h) = some h) ∧
    (1 < h → convertAccuWeatherHumidity (some h) = some (h / 100)) ∧
    convertAccuWeatherHumidity (some 65) = some 0.65 ∧
    convertAccuWeatherHumidity none = none := by
  refine ⟨?_, ?_, ?_, rfl⟩
  · intro hle
    simp only [convertAccuWeatherHumidity]
    rw [if_pos hle]
  · intro hgt
    simp only [convertAccuWeatherHumidity]
    rw [if_neg (not_le.mpr hgt)]
  · simp only [convertAccuWeatherHumidity]
    norm_num

/-- Witness for C10_amended: the pass-through branch at 0.3 and the
percentage branch at 65. -/
theorem C10_witness :
    ((0.3 : ℝ) ≤ 1 ∧ convertAccuWeatherHumidity (some 0.3) = some 0.3) ∧
    ((1 : ℝ) < 65 ∧ convertAccuWeatherHumidity (some 65) = some (65 / 100)) :=
  ⟨⟨by norm_num, (C10_amended 0.3).1 (by norm_num)⟩,
   ⟨by norm_num, (C10_amended 65).2.1 (by norm_num)⟩⟩

/-- Counterexample to claim C10 as stated: the input −2 has magnitude
strictly greater than 1, so the claim demands −2/100 = −0.02, but the code
compares with the signed value (−2 ≤ 1) and returns −2 unchanged. -/
theorem C10_cex :
    (1 : ℝ) < |(-2 : ℝ)| ∧
    convertAccuWeatherHumidity (some (-2)) = some (-2) ∧
    (-2 : ℝ) ≠ -2 / 100 := by
  refine ⟨by norm_num, ?_, by norm_num⟩
  simp only [convertAccuWeatherHumidity]
  norm_num

theorem jsMul_posInf_finite_pos (b : ℝ) (hb : 0 < b) :
    jsMul .posInf (.finite b) = .posInf := by
  show (if b = 0 then JSNum.nan else if 0 < b then .posInf else .negInf) = .posInf
  rw [if_neg (ne_of_gt hb), if_pos hb]

/-- Claim C5 (amended): the degraded-mode fallback of the wind calculator
fires exactly when `typeof` of either speed argument is not `"number"` (the
`undefined`/`null` the upstream converters produce).  In the fallback, the
speed is `trueWindSpeed || 0` (the raw value when truthy, otherwise 0) and
the angle is the unnormalized coerced difference
`ToNumber(trueWindDirection) - ToNumber(vesselHeading)` (NaN when an operand
is `undefined`, while `null` coerces to 0).  NaN and ±Infinity are JavaScript
numbers: they pass the guard and flow through the vector computation instead
of triggering the fallback — a NaN trueWindSpeed yields NaN for both
outputs, while an Infinity trueWindSpeed (direction π/4, heading 0) yields
speed Infinity and the finite angle π/4 via `atan2(∞, ∞) = π/4`. -/
theorem C5_amended :
    (∀ a b c d : JSVal, (typeofIsNumber a = false ∨ typeofIsNumber b = false) →
      calculateApparentWindSpeedJS a b c d = jsOr a (.num (.finite 0)) ∧
      calculateApparentWindAngleJS a b c d
        = some (.num (jsSub (toNumber d) (toNumber c)))) ∧
    (∀ v hdg dir : ℝ,
      calculateApparentWindSpeedJS (.num .nan) (.num (.finite v))
        (.num (.finite hdg)) (.num (.finite dir)) = .num .nan ∧
      calculateApparentWindAngleJS (.num .nan) (.num (.finite v))
        (.num (.finite hdg)) (.num (.finite dir)) = some (.num .nan)) ∧
    (calculateApparentWindSpeedJS (.num .posInf) (.num (.finite 1))
      (.num (.finite 0)) (.num (.finite (Real.pi / 4))) = .num .posInf ∧
     calculateApparentWindAngleJS (.num .posInf) (.num (.finite 1))
      (.num (.finite 0)) (.num (.finite (Real.pi / 4)))
        = some (.num (.finite (Real.pi / 4)))) := by
  have hcpos : 0 < Real.cos (Real.pi / 4) := by
    rw [Real.cos_pi_div_four]
    positivity
  have hspos : 0 < Real.sin (Real.pi / 4) := by
    rw [Real.sin_pi_div_four]
    positivity
  have e1 : jsMul .posInf (jsCos (.finite (Real.pi / 4))) = .posInf := by
    show jsMul .posInf (.finite (Real.cos (Real.pi / 4))) = .posInf
    exact jsMul_posInf_finite_pos _ hcpos
  have e2 : jsMul .posInf (jsSin (.finite (Real.pi / 4))) = .posInf := by
    show jsMul .posInf (.finite (Real.sin (Real.pi / 4))) = .posInf
    exact jsMul_posInf_finite_pos _ hspos
  refine ⟨?_, ?_, ?_, ?_⟩
  · intro a b c d h
    constructor
    · simp only [calculateApparentWindSpeedJS]
      rw [if_pos h]
    · simp only [calculateApparentWindAngleJS]
      rw [if_pos h]
  · intro v hdg dir
    exact ⟨rfl, rfl⟩
  · simp only [calculateApparentWindSpeedJS, typeofIsNumber, toNumber]
    rw [if_neg (by simp), e1, e2]
    rfl
  · simp only [calculateApparentWindAngleJS, typeofIsNumber, toNumber]
    rw [if_neg (by simp), e1, e2]
    show some (JSVal.num (.finite (normalizeAngle (Real.pi / 4 - 0))))
      = some (.num (.finite (Real.pi / 4)))
    rw [sub_zero, normalizeAngle_eq_self (Real.pi / 4)
      (by linarith [Real.pi_pos]) (by linarith [Real.pi_pos])]

/-- Witness for C5_amended with a `null` vesselSpeed (as the navigation
converters produce): the guard fires and the numeric heading/direction are
coerced. -/
theorem C5_witness :
    calculateApparentWindSpeedJS (.num (.finite 5)) .null (.num (.finite 2))
      (.num (.finite 3)) = jsOr (.num (.finite 5)) (.num (.finite 0)) ∧
    calculateApparentWindAngleJS (.num (.finite 5)) .null (.num (.finite 2))
      (.num (.finite 3))
      = some (.num (jsSub (toNumber (.num (.finite 3))) (toNumber (.num (.finite 2))))) :=
  C5_amended.1 (.num (.finite 5)) .null (.num (.finite 2)) (.num (.finite 3)) (Or.inr rfl)

/-- Counterexample to claim C5 as stated: with trueWindSpeed = NaN (an
"invalid number" in the claim's sense) and vesselSpeed = 1, the `typeof`
guard does not fire (`typeof NaN === "number"`), the vector math runs, and
both functions return NaN — not the claimed fallback values 0 and
`trueWindDirection - vesselHeading = 0`. -/
theorem C5_cex :
    calculateApparentWindSpeedJS (.num .nan) (.num (.finite 1)) (.num (.finite 0))
      (.num (.finite 0)) = .num .nan ∧
    calculateApparentWindAngleJS (.num .nan) (.num (.finite 1)) (.num (.finite 0))
      (.num (.finite 0)) = some (.num .nan) ∧
    jsSub (toNumber (.num (.finite 0))) (toNumber (.num (.finite 0))) = .finite (0 - 0) ∧
    (JSVal.num .nan ≠ JSVal.num (.finite 0)) ∧
    (JSNum.nan ≠ JSNum.finite (0 - 0)) := by
  refine ⟨rfl, rfl, rfl, by simp, by simp⟩

theorem jsLoop1_posInf (n : ℕ) : jsLoop1 n .posInf = none := by
  induction n with
  | zero => rfl
  | succ n ih => simpa [jsLoop1, jsGtPi, jsSub] using ih

theorem jsLoop2_negInf (n : ℕ) : jsLoop2 n .negInf = none := by
  induction n with
  | zero => rfl
  | succ n ih => simpa [jsLoop2, jsLtNegPi, jsAdd] using ih

theorem jsLoop1_finite (x : ℝ) :
    ∃ n : ℕ, ∀ m : ℕ, n ≤ m → jsLoop1 m (.finite x) = some (.finite (normLoop1 x)) := by
  induction x using normLoop1.induct with
  | case1 x h ih =>
    obtain ⟨n, hn⟩ := ih
    refine ⟨n + 1, ?_⟩
    intro m hm
    obtain ⟨m', rfl⟩ : ∃ m', m = m' + 1 := ⟨m - 1, by omega⟩
    have hg : jsGtPi (.finite x) = true := by simp [jsGtPi, h]
    show (if jsGtPi (.finite x) = true
        then jsLoop1 m' (jsSub (.finite x) (.finite (2 * Real.pi)))
        else some (.finite x)) = some (.finite (normLoop1 x))
    rw [if_pos hg]
    have hsub : jsSub (.finite x) (.finite (2 * Real.pi)) = .finite (x - 2 * Real.pi) := rfl
    rw [hsub, hn m' (by omega)]
    conv_rhs => rw [normLoop1, dif_pos h]
  | case2 x h =>
    refine ⟨1, ?_⟩
    intro m hm
    obtain ⟨m', rfl⟩ : ∃ m', m = m' + 1 := ⟨m - 1, by omega⟩
    have hg : jsGtPi (.finite x) = false := by simp [jsGtPi, h]
    show (if jsGtPi (.finite x) = true
        then jsLoop1 m' (jsSub (.finite x) (.finite (2 * Real.pi)))
        else some (.finite x)) = some (.finite (normLoop1 x))
    rw [hg, if_neg (by simp)]
    conv_rhs => rw [normLoop1, dif_neg h]

theorem jsLoop2_finite (x : ℝ) :
    ∃ n : ℕ, ∀ m : ℕ, n ≤ m → jsLoop2 m (.finite x) = some (.finite (normLoop2 x)) := by
  induction x using normLoop2.induct with
  | case1 x h ih =>
    obtain ⟨n, hn⟩ := ih
    refine ⟨n + 1, ?_⟩
    intro m hm
    obtain ⟨m', rfl⟩ : ∃ m', m = m' + 1 := ⟨m - 1, by omega⟩
    have hg : jsLtNegPi (.finite x) = true := by simp [jsLtNegPi, h]
    show (if jsLtNegPi (.finite x) = true
        then jsLoop2 m' (jsAdd (.finite x) (.finite (2 * Real.pi)))
        else some (.finite x)) = some (.finite (normLoop2 x))
    rw [if_pos hg]
    have hadd : jsAdd (.finite x) (.finite (2 * Real.pi)) = .finite (x + 2 * Real.pi) := rfl
    rw [hadd, hn m' (by omega)]
    conv_rhs => rw [normLoop2, dif_pos h]
  | case2 x h =>
    refine ⟨1, ?_⟩
    intro m hm
    obtain ⟨m', rfl⟩ : ∃ m', m = m' + 1 := ⟨m - 1, by omega⟩
    have hg : jsLtNegPi (.finite x) = false := by simp [jsLtNegPi, h]
    show (if jsLtNegPi (.finite x) = true
        then jsLoop2 m' (jsAdd (.finite x) (.finite (2 * Real.pi)))
        else some (.finite x)) = some (.finite (normLoop2 x))
    rw [hg, if_neg (by simp)]
    conv_rhs => rw [normLoop2, dif_neg h]

theorem jsLoop1_mono (n m : ℕ) (a : JSNum) (r : JSNum) (hnm : n ≤ m)
    (h : jsLoop1 n a = some r) : jsLoop1 m a = some r := by
  induction n generalizing a m with
  | zero => exact absurd h (by simp [jsLoop1])
  | succ n ih =>
    obtain ⟨m', rfl⟩ : ∃ m', m = m' + 1 := ⟨m - 1, by omega⟩
    rw [jsLoop1] at h ⊢
    by_cases hg : jsGtPi a = true
    · rw [if_pos hg] at h ⊢
      exact ih m' _ (by omega) h
    · rw [if_neg hg] at h ⊢
      exact h

/-- Claim C3: the `±2π` normalization loops are NOT total on JavaScript
numbers: on `+Infinity` and `-Infinity` they never finish for any iteration
bound (the guard stays true and `±Infinity ∓ 2π = ±Infinity`), while on `NaN`
they return immediately and on every finite real they terminate with the
value of `normalizeAngle`.  The engine therefore diverges on infinite input,
contradicting the spec's totality contract — a code bug. -/
theorem C3_bug :
    (∀ n : ℕ, jsNormalizeAngleFuel n .posInf = none) ∧
    (∀ n : ℕ, jsNormalizeAngleFuel n .negInf = none) ∧
    (∀ n : ℕ, jsNormalizeAngleFuel (n + 1) .nan = some .nan) ∧
    (∀ x : ℝ, ∃ n : ℕ, jsNormalizeAngleFuel n (.finite x)
      = some (.finite (normalizeAngle x))) := by
  refine ⟨?_, ?_, ?_, ?_⟩
  · intro n
    simp [jsNormalizeAngleFuel, jsLoop1_posInf]
  · intro n
    cases n with
    | zero => rfl
    | succ n =>
      have h1 : jsLoop1 (n + 1) .negInf = some .negInf := by
        simp [jsLoop1, jsGtPi]
      simp [jsNormalizeAngleFuel, h1, jsLoop2_negInf]
  · intro n
    simp [jsNormalizeAngleFuel, jsLoop1, jsLoop2, jsGtPi, jsLtNegPi]
  · intro x
    obtain ⟨n1, h1⟩ := jsLoop1_finite x
    obtain ⟨n2, h2⟩ := jsLoop2_finite (normLoop1 x)
    refine ⟨max n1 n2, ?_⟩
    rw [jsNormalizeAngleFuel, h1 _ (le_max_left _ _), Option.some_bind,
      h2 _ (le_max_right _ _)]
    rfl

theorem normalizeIfTruthy_isSome (v : Option JSNum)
    (h : v ≠ some .posInf ∧ v ≠ some .negInf) :
    ∃ a, normalizeIfTruthy v = some a := by
  match v with
  | none => exact ⟨none, rfl⟩
  | some (.finite x) =>
    by_cases hx : jsTruthy (.finite x) = true
    · refine ⟨some (.finite (normalizeAngle x)), ?_⟩
      simp only [normalizeIfTruthy]
      rw [if_pos hx]
    · refine ⟨some (.finite x), ?_⟩
      simp only [normalizeIfTruthy]
      rw [if_neg hx]
  | some .nan =>
    refine ⟨some .nan, ?_⟩
    simp only [normalizeIfTruthy]
    rw [if_neg (by simp [jsTruthy])]
  | some .posInf => exact (h.1 rfl).elim
  | some .negInf => exact (h.2 rfl).elim

/-- Claim C8 (amended): `validateNMEA2000Ranges` clamps only the
`temperature` field among the temperature-kind parameters — `dewPoint`,
`windChill` and `heatIndex` are passed through without any range check — and
a rule fires only when its field is truthy (present, nonzero, non-NaN), not
merely "present as a number"; absent fields stay absent.  The hypothesis on
`apparentWindAngle` excludes the inputs on which the validator's
normalization loop diverges (see C3). -/
theorem C8_amended (wd : WeatherData)
    (hangle : wd.apparentWindAngle ≠ some .posInf ∧ wd.apparentWindAngle ≠ some .negInf) :
    ∃ wd', validateNMEA2000Ranges (some wd) = some wd' ∧
      (∀ x : ℝ, wd.temperature = some (.finite x) → x ≠ 0 →
        wd'.temperature = some (.finite (max 233.15 (min 358.15 x)))) ∧
      wd'.dewPoint = wd.dewPoint ∧
      wd'.windChill = wd.windChill ∧
      wd'.heatIndex = wd.heatIndex ∧
      (wd.temperature = none → wd'.temperature = none) := by
  obtain ⟨a, ha⟩ := normalizeIfTruthy_isSome wd.apparentWindAngle hangle
  refine ⟨{ wd with
      temperature := applyIfTruthy
        (fun v => jsMax (.finite 233.15) (jsMin (.finite 358.15) v)) wd.temperature
      pressure := applyIfTruthy
        (fun v => jsMax (.finite 80000) (jsMin (.finite 120000) v)) wd.pressure
      humidity := applyIfTruthy
        (fun v => jsMax (.finite 0) (jsMin (.finite 1) v)) wd.humidity
      windSpeed := applyIfTruthy
        (fun v => jsMax (.finite 0) (jsMin (.finite 102.3) v)) wd.windSpeed
      apparentWindSpeed := applyIfTruthy
        (fun v => jsMax (.finite 0) (jsMin (.finite 102.3) v)) wd.apparentWindSpeed
      windDirection := applyIfTruthy jsWrapTwoPi wd.windDirection
      apparentWindAngle := a }, ?_, ?_, rfl, rfl, rfl, ?_⟩
  · simp only [validateNMEA2000Ranges]
    rw [ha]
    rfl
  · intro x hx hx0
    show applyIfTruthy
      (fun v => jsMax (.finite 233.15) (jsMin (.finite 358.15) v)) wd.temperature
      = some (.finite (max 233.15 (min 358.15 x)))
    rw [hx]
    simp only [applyIfTruthy]
    rw [if_pos (by simp [jsTruthy, hx0])]
    rfl
  · intro hx
    show applyIfTruthy
      (fun v => jsMax (.finite 233.15) (jsMin (.finite 358.15) v)) wd.temperature
      = none
    rw [hx]
    rfl

/-- Witness for C8_amended: the claim's range scenario, an input temperature
of 400 K clamps to 358.15 K. -/
theorem C8_witness :
    ∃ wd', validateNMEA2000Ranges (some { temperature := some (.finite 400) })
      = some wd' ∧ wd'.temperature = some (.finite 358.15) := by
  obtain ⟨wd', h1, h2, -, -, -, -⟩ :=
    C8_amended { temperature := some (.finite 400) } (by exact ⟨by simp, by simp⟩)
  refine ⟨wd', h1, ?_⟩
  rw [h2 400 rfl (by norm_num)]
  rw [show max (233.15 : ℝ) (min 358.15 400) = 358.15 by norm_num]

/-- Counterexample to claim C8 as stated: a candidate set whose `dewPoint`
(a temperature-kind parameter per the claim) is the number 400 passes
validation completely unchanged — 400 is outside [233.15, 358.15], so the
claimed clamp does not happen. -/
theorem C8_cex :
    validateNMEA2000Ranges (some { dewPoint := some (.finite 400) })
      = some { dewPoint := some (.finite 400) } ∧
    ¬ ((400 : ℝ) ≤ 358.15) := by
  constructor
  · rfl
  · norm_num

theorem absHumidity_at_defaults :
    calculateAbsoluteHumidity 273.15 0.5 = 0.002166 * (0.5 * 6.112) / 273.15 := by
  simp only [calculateAbsoluteHumidity]
  rw [if_neg (by norm_num)]
  rw [show (17.27 : ℝ) * (273.15 - 273.15) / (237.7 + (273.15 - 273.15)) = 0 by norm_num,
    Real.exp_zero]
  rw [if_neg (by norm_num)]
  norm_num

theorem airDensity_at_defaults :
    calculateAirDensity 273.15 101325 0.5
      = (101325 - 0.5 * 611.2) / (287.0531 * 273.15)
        + 0.5 * 611.2 / (461.4964 * 273.15) := by
  simp only [calculateAirDensity]
  rw [if_neg (by norm_num)]
  rw [show (17.27 : ℝ) * (273.15 - 273.15) / (237.7 + (273.15 - 273.15)) = 0 by norm_num,
    Real.exp_zero]
  rw [if_neg (by norm_num)]
  norm_num

/-- Claim C1 (amended): for every input — including a missing or non-object
one (`none`) and the empty record — the batch emitted by `mapToSignalKPaths`
consists of exactly the fixed 16 numeric parameters of `numericSignalKPaths`
(every value built as a real number, none omitted, none beyond the set), not
13 as claimed, plus the text description exactly when it is present and
non-empty. -/
theorem C1_amended (weatherData : Option WeatherData) :
    ((mapToSignalKPaths weatherData).filter (fun e => e.value.isNum)).map SKEntry.path
      = numericSignalKPaths ∧
    ((mapToSignalKPaths weatherData).filter (fun e => !e.value.isNum)).map SKEntry.path
      = (if descriptionTruthy (weatherData.getD {}) then
          ["environment.outside.weatherDescription"] else ([] : List String)) ∧
    numericSignalKPaths.length = 16 := by
  rcases weatherData with _ | wd
  · exact ⟨rfl, rfl, rfl⟩
  · rcases hdesc : wd.description with _ | s
    · refine ⟨?_, ?_, rfl⟩
      · simp only [mapToSignalKPaths, Option.getD_some, hdesc]
        rfl
      · simp only [mapToSignalKPaths, Option.getD_some, descriptionTruthy, hdesc]
        rfl
    · by_cases hs : s = ""
      · subst hs
        refine ⟨?_, ?_, rfl⟩
        · simp only [mapToSignalKPaths, Option.getD_some, hdesc]
          rw [if_neg (by simp)]
          rfl
        · simp only [mapToSignalKPaths, Option.getD_some, descriptionTruthy, hdesc]
          rw [if_neg (by simp), if_neg (by simp)]
          rfl
      · refine ⟨?_, ?_, rfl⟩
        · simp only [mapToSignalKPaths, Option.getD_some, hdesc]
          rw [if_pos hs]
          rfl
        · simp only [mapToSignalKPaths, Option.getD_some, descriptionTruthy, hdesc]
          rw [if_pos hs, if_pos (by simpa using hs)]
          rfl

/-- Counterexample to claim C1 as stated: the batch emitted for a missing
input contains 16 numeric parameters, not the claimed 13 (the reference list
`getNMEA2000Paths` of the source does have 13 entries, but it does not match
what `mapToSignalKPaths` emits). -/
theorem C1_cex :
    ((mapToSignalKPaths none).filter (fun e => e.value.isNum)).length = 16 ∧
    ((mapToSignalKPaths none).filter (fun e => e.value.isNum)).length ≠ 13 ∧
    getNMEA2000Paths.length = 13 := by
  refine ⟨rfl, ?_, rfl⟩
  have h : ((mapToSignalKPaths none).filter (fun e => e.value.isNum)).length = 16 := rfl
  rw [h]
  omega

/-- Claim C9 (amended): on the empty observation the mapper returns a full
batch without raising: the 14 directly-mapped numeric parameters carry the
documented static defaults (273.15 K on the six temperature-kind paths,
101325 Pa, 0.5, and 0 on the three wind-speed and the three
direction/angle paths), while the two derived parameters are computed from
those defaults — absolute humidity 0.002166·(0.5·6.112)/273.15 ≈ 2.42e-5 and
air density ≈ 1.2908, not static defaults. -/
theorem C9_amended :
    mapToSignalKPaths (some {}) =
      [ ⟨"environment.outside.temperature", .num 273.15⟩,
        ⟨"environment.outside.dewPointTemperature", .num 273.15⟩,
        ⟨"environment.outside.apparentTemperature", .num 273.15⟩,
        ⟨"environment.outside.windChillTemperature", .num 273.15⟩,
        ⟨"environment.outside.theoreticalWindChillTemperature", .num 273.15⟩,
        ⟨"environment.outside.heatIndexTemperature", .num 273.15⟩,
        ⟨"environment.outside.pressure", .num 101325⟩,
        ⟨"environment.outside.relativeHumidity", .num 0.5⟩,
        ⟨"environment.wind.speedTrue", .num 0⟩,
        ⟨"environment.wind.directionTrue", .num 0⟩,
        ⟨"environment.wind.speedApparent", .num 0⟩,
        ⟨"environment.wind.angleApparent", .num 0⟩,
        ⟨"environment.wind.speedOverGround", .num 0⟩,
        ⟨"environment.wind.angleTrueWater", .num 0⟩,
        ⟨"environment.outside.absoluteHumidity",
          .num (0.002166 * (0.5 * 6.112) / 273.15)⟩,
        ⟨"environment.outside.airDensity",
          .num ((101325 - 0.5 * 611.2) / (287.0531 * 273.15)
            + 0.5 * 611.2 / (461.4964 * 273.15))⟩ ] := by
  have habs := absHumidity_at_defaults
  have hden := airDensity_at_defaults
  simp only [mapToSignalKPaths, Option.getD_some, getValueOrDefault, defaults]
  rw [habs, hden]
  rfl

/-- Counterexample to claim C9 as stated: in the batch for the empty
observation, the air-density parameter does not carry any of the documented
static defaults (273.15, 101325, 0.5, 0) — it is computed (≈ 1.2908). -/
theorem C9_cex :
    (mapToSignalKPaths (some {}))[15]?
      = some ⟨"environment.outside.airDensity",
          .num (calculateAirDensity 273.15 101325 0.5)⟩ ∧
    calculateAirDensity 273.15 101325 0.5 ≠ 273.15 ∧
    calculateAirDensity 273.15 101325 0.5 ≠ 101325 ∧
    calculateAirDensity 273.15 101325 0.5 ≠ 0.5 ∧
    calculateAirDensity 273.15 101325 0.5 ≠ 0 := by
  refine ⟨rfl, ?_, ?_, ?_, ?_⟩ <;> rw [airDensity_at_defaults] <;> norm_num

end N2KWeather
